import Mathlib

/-!
# Verification of the nerdwm window manager core

Shallow embedding of the window-lifecycle and interaction state machine of
the `nerdwm` window manager, together with proofs and refutations of the
specification's claims about it.

Two generations of the code are modelled:

* the xlib generation (`src/workspace/mod.rs`, `src/workspace/client.rs`,
  `nerdwm-x11/src/window.rs`), namespace `Nerdwm`;
* the xcb generation (`src/wm/mod.rs`, `src/wm/desktop.rs`,
  `src/wm/config.rs`), namespace `NerdwmWm`.

The display server is modelled as an explicit state (`XServer`) holding the
per-window attributes the code reads back (geometry, border, parent), plus a
trace of emitted protocol requests (`XOp`), so that ordering claims about
request emission can be stated.  Machine integers (`i32`) are modelled as
`Int` with explicit two's-complement wrapping where the code performs
arithmetic.
-/

namespace Nerdwm

/-- Two's-complement normalization of an integer into the `i32` range,
modelling Rust release-mode wrapping arithmetic. -/
def wrap32 (n : Int) : Int := (n + 2 ^ 31) % 2 ^ 32 - 2 ^ 31

/-- `i32` addition (wrapping). -/
def addI32 (a b : Int) : Int := wrap32 (a + b)

/-- `i32` subtraction (wrapping). -/
def subI32 (a b : Int) : Int := wrap32 (a - b)

/-- Pointwise update of a map with `Nat` keys. -/
def upd {α : Type} (f : Nat → α) (k : Nat) (v : α) : Nat → α :=
  fun n => if n = k then v else f n

/-- Window geometry, as read back by `XGetWindowAttributes`
(`x`, `y`, `width`, `height` are C `int`s). -/
structure Geometry where
  x : Int
  y : Int
  width : Int
  height : Int
deriving DecidableEq, Repr

/-- Mirror of `xlib::XWindowChanges` as used by `Workspace::send_event`. -/
structure XWindowChanges where
  x : Int
  y : Int
  width : Int
  height : Int
  border_width : Int
  sibling : Nat
  stack_mode : Int
deriving DecidableEq, Repr

/-- `xlib::CWX` -/
def CWX : Nat := 1
/-- `xlib::CWY` -/
def CWY : Nat := 2
/-- `xlib::CWWidth` -/
def CWWidth : Nat := 4
/-- `xlib::CWHeight` -/
def CWHeight : Nat := 8
/-- `xlib::CWBorderWidth` -/
def CWBorderWidth : Nat := 16

/-- One X protocol request, as emitted by the code through
`nerdwm-x11`'s `Window` methods. -/
inductive XOp where
  | createWindow (xid parent : Nat) (g : Geometry) (borderWidth : Int) (borderColor : Nat)
  | setEventMask (xid mask : Nat)
  | setSaveSet (xid : Nat) (saved : Bool)
  | reparent (xid parent : Nat)
  | mapW (xid : Nat)
  | unmapW (xid : Nat)
  | destroyW (xid : Nat)
  | raiseW (xid : Nat)
  | setBorderWidth (xid : Nat) (w : Int)
  | setBorderColor (xid : Nat) (c : Nat)
  | configureW (xid : Nat) (ch : XWindowChanges) (mask : Nat)
deriving DecidableEq, Repr

/-- The display server state visible to the window manager, plus the
trace of requests issued so far. -/
structure XServer where
  root : Nat
  nextXid : Nat
  parentOf : Nat → Nat
  geom : Nat → Geometry
  borderWidth : Nat → Int
  borderColor : Nat → Nat
  mapped : Nat → Bool
  saveSet : Nat → Bool
  trace : List XOp

/-- `nerdwm_x11::window::Window`: a bare X identifier. -/
structure Window where
  xid : Nat
deriving DecidableEq, Repr

/-- `Window::from_xid`. -/
def Window.from_xid (xid : Nat) : Window := ⟨xid⟩

/-- `Window::get_xid`. -/
def Window.get_xid (w : Window) : Nat := w.xid

/-- `Window::create` (`XCreateSimpleWindow`): allocates a fresh identifier,
records geometry, border width and border color, and parents the new
window under `parent`. -/
def Window.create (s : XServer) (parent : Window) (x y : Int) (width height : Int)
    (border_width : Int) (border_color : Nat) : XServer × Window :=
  let xid := s.nextXid
  ({ s with
      nextXid := xid + 1
      parentOf := upd s.parentOf xid parent.xid
      geom := upd s.geom xid ⟨x, y, width, height⟩
      borderWidth := upd s.borderWidth xid border_width
      borderColor := upd s.borderColor xid border_color
      trace := s.trace ++ [XOp.createWindow xid parent.xid ⟨x, y, width, height⟩
        border_width border_color] },
   ⟨xid⟩)

/-- `Window::map` (`XMapWindow`). -/
def Window.mapWin (w : Window) (s : XServer) : XServer :=
  { s with mapped := upd s.mapped w.xid true, trace := s.trace ++ [XOp.mapW w.xid] }

/-- `Window::unmap` (`XUnmapWindow`). -/
def Window.unmap (w : Window) (s : XServer) : XServer :=
  { s with mapped := upd s.mapped w.xid false, trace := s.trace ++ [XOp.unmapW w.xid] }

/-- `Window::raise` (`XRaiseWindow`); stacking order itself is not tracked. -/
def Window.raiseWin (w : Window) (s : XServer) : XServer :=
  { s with trace := s.trace ++ [XOp.raiseW w.xid] }

/-- `Window::set_save_set` (`XAddToSaveSet` / `XRemoveFromSaveSet`). -/
def Window.set_save_set (w : Window) (s : XServer) (saved : Bool) : XServer :=
  { s with saveSet := upd s.saveSet w.xid saved, trace := s.trace ++ [XOp.setSaveSet w.xid saved] }

/-- `Window::set_event_mask` (`XSelectInput`); the mask is recorded in the
trace only. -/
def Window.set_event_mask (w : Window) (s : XServer) (mask : Nat) : XServer :=
  { s with trace := s.trace ++ [XOp.setEventMask w.xid mask] }

/-- `Window::reparent` (`XReparentWindow`). -/
def Window.reparent (w : Window) (s : XServer) (parent : Window) : XServer :=
  { s with parentOf := upd s.parentOf w.xid parent.xid
           trace := s.trace ++ [XOp.reparent w.xid parent.xid] }

/-- `Window::set_border_width` (`XSetWindowBorderWidth`). -/
def Window.set_border_width (w : Window) (s : XServer) (width : Int) : XServer :=
  { s with borderWidth := upd s.borderWidth w.xid width
           trace := s.trace ++ [XOp.setBorderWidth w.xid width] }

/-- `Window::set_border_color` (`XSetWindowBorder`). -/
def Window.set_border_color (w : Window) (s : XServer) (color : Nat) : XServer :=
  { s with borderColor := upd s.borderColor w.xid color
           trace := s.trace ++ [XOp.setBorderColor w.xid color] }

/-- `Window::get_properties` (`XGetWindowAttributes`): reads geometry back
from the server. -/
def Window.get_properties (w : Window) (s : XServer) : Geometry := s.geom w.xid

/-- `Window::configure` (`XConfigureWindow`): applies exactly the fields
selected by `value_mask` to the stored geometry and border width. -/
def Window.configure (w : Window) (s : XServer) (ch : XWindowChanges) (mask : Nat) : XServer :=
  let g := s.geom w.xid
  let g' : Geometry :=
    { x := if mask &&& CWX ≠ 0 then ch.x else g.x
      y := if mask &&& CWY ≠ 0 then ch.y else g.y
      width := if mask &&& CWWidth ≠ 0 then ch.width else g.width
      height := if mask &&& CWHeight ≠ 0 then ch.height else g.height }
  { s with
      geom := upd s.geom w.xid g'
      borderWidth := if mask &&& CWBorderWidth ≠ 0 then
          upd s.borderWidth w.xid ch.border_width
        else s.borderWidth
      trace := s.trace ++ [XOp.configureW w.xid ch mask] }

/-- `Window::destroy` (`XDestroyWindow`). -/
def Window.destroyWin (w : Window) (s : XServer) : XServer :=
  { s with mapped := upd s.mapped w.xid false, trace := s.trace ++ [XOp.destroyW w.xid] }

/-- `config::BorderConfig` (width `u32`, color `u64`). -/
structure BorderConfig where
  width : Int
  color : Nat
deriving DecidableEq, Repr

/-- `workspace::client::ClientWindow`: the managed window plus its frame. -/
structure ClientWindow where
  internal : Window
  frame : Window
deriving DecidableEq, Repr

/-- `ClientWindow::from_window`: reads the window's geometry, creates a frame
with the given border config (plus the hard-coded background `0x0011_1111`),
selects substructure events on it, puts the frame in the save-set, and
reparents the window into the frame. -/
def ClientWindow.from_window (s : XServer) (window : Window) (border : BorderConfig) :
    XServer × ClientWindow :=
  let properties := window.get_properties s
  let created := Window.create s (Window.from_xid s.root) properties.x properties.y
    properties.width properties.height border.width border.color
  let s := created.1
  let frame := created.2
  let s := frame.set_event_mask s 0x180000
  let s := frame.set_save_set s true
  let s := window.reparent s frame
  (s, { internal := window, frame := frame })

/-- `ClientWindow::destroy`: optionally reparent the managed window back to
the root, then unmap the frame, remove it from the save-set, and destroy it. -/
def ClientWindow.destroy (c : ClientWindow) (s : XServer) (reparent : Bool) : XServer :=
  let s := if reparent then c.internal.reparent s (Window.from_xid s.root) else s
  let s := c.frame.unmap s
  let s := c.frame.set_save_set s false
  c.frame.destroyWin s

/-- `event::Action` of the xlib generation. -/
inductive Action where
  | noAction
  | windowMove
  | windowResize
  | windowClose
deriving DecidableEq, Repr

/-- `config::MouseBind`: an action bound to a mouse button (modifiers are
never consulted by `Workspace::send_event`). -/
structure MouseBind where
  action : Action
  bind : Nat
deriving DecidableEq, Repr

/-- The parts of `config::Config` read by `Workspace`. -/
structure Config where
  border : BorderConfig
  border_unfocused : BorderConfig
  mousebinds : List MouseBind
deriving DecidableEq, Repr

/-- `event::Mode`: the interaction mode, holding a copy of the manipulated
client (`ClientWindow` is `Copy` in the source). -/
inductive Mode where
  | idle
  | move (c : ClientWindow)
  | resize (c : ClientWindow)
deriving DecidableEq, Repr

/-- The events consumed by `Workspace::send_event`, with the fields the
handler actually reads. -/
inductive Event where
  | windowCreate (window : Nat)
  | windowConfigureRequest (window : Nat) (x y width height border_width : Int)
      (above : Nat) (detail : Int) (value_mask : Nat)
  | windowMapRequest (window : Nat)
  | windowUnmap (window : Nat)
  | windowDestroy (window : Nat)
  | buttonPress (button : Nat) (x_root y_root : Int) (subwindow : Nat)
  | buttonRelease (button : Nat)
  | pointerMotion (x_root y_root : Int)
  | keyPress
  | keyRelease
  | unknown
deriving DecidableEq, Repr

/-- `Vec::iter().position(p)` together with the subsequent index access:
returns the first index satisfying the predicate and the element there. -/
def findClient (p : ClientWindow → Bool) : List ClientWindow → Option (Nat × ClientWindow)
  | [] => none
  | c :: rest =>
    if p c then some (0, c)
    else (findClient p rest).map (fun q => (q.1 + 1, q.2))

/-- `workspace::Workspace`: client stack, configuration, last mouse
position and interaction mode, together with the server state it drives.
The layout manager is `FloatingLayoutManager`, whose `config` is a no-op. -/
structure Workspace where
  server : XServer
  clients : List ClientWindow
  config : Config
  prev_mouse : Int × Int
  mode : Mode

/-- `Workspace::get_client`: stack position by managed-window id. -/
def Workspace.get_client (ws : Workspace) (xid : Nat) : Option (Nat × ClientWindow) :=
  findClient (fun w => w.internal.get_xid = xid) ws.clients

/-- `Workspace::get_client_from_frame`: stack position by frame id. -/
def Workspace.get_client_from_frame (ws : Workspace) (xid : Nat) : Option (Nat × ClientWindow) :=
  findClient (fun w => w.frame.get_xid = xid) ws.clients

/-- `Workspace::unfocus_update`: restyles `clients[index]` with the
unfocused border — but only when `clients.len() == index + 1`. -/
def Workspace.unfocus_update (ws : Workspace) (index : Nat) : Workspace :=
  if ws.clients.length = index + 1 then
    match ws.clients[index]? with
    | some c =>
      let s := c.frame.set_border_width ws.server ws.config.border_unfocused.width
      let s := c.frame.set_border_color s ws.config.border_unfocused.color
      { ws with server := s }
    | none => ws
  else ws

/-- `Workspace::focus_update`: raises and restyles `client` with the focused
border, pushes it to the front of the stack, then calls
`unfocus_update 1` when more than one client is present. -/
def Workspace.focus_update (ws : Workspace) (client : ClientWindow) : Workspace :=
  let s := client.frame.raiseWin ws.server
  let s := client.frame.set_border_width s ws.config.border.width
  let s := client.frame.set_border_color s ws.config.border.color
  let ws := { ws with server := s, clients := client :: ws.clients }
  if ws.clients.length > 1 then ws.unfocus_update 1 else ws

/-- `Workspace::push`: adopt the window behind a new frame, map both, and
focus the new client (the floating layout manager then does nothing). -/
def Workspace.push (ws : Workspace) (window : Window) : Workspace :=
  let fw := ClientWindow.from_window ws.server window ws.config.border
  let client := fw.2
  let s := client.frame.mapWin fw.1
  let s := client.internal.mapWin s
  Workspace.focus_update { ws with server := s } client

/-- `Workspace::pop`: removes the client at `index`, then unconditionally
removes the new element `0` and re-focuses it, then destroys the removed
client without reparenting.  `none` models the panics of the two
`Vec::remove` calls (index out of range, or the stack left empty by the
first removal).  The removed client is returned alongside the new state
(the source returns its `destroy` result). -/
def Workspace.pop (ws : Workspace) (index : Nat) : Option (ClientWindow × Workspace) :=
  match ws.clients[index]? with
  | none => none
  | some client =>
    match ws.clients.eraseIdx index with
    | [] => none
    | new_focused :: rest =>
      let ws := Workspace.focus_update { ws with clients := rest } new_focused
      some (client, { ws with server := client.destroy ws.server false })

/-- The body of `send_event`'s binding loop on `ButtonPress`: the loop
carries no `break`, so every matching bind overwrites the mode in turn;
binds whose action is neither `WindowMove` nor `WindowResize`, and binds on
a different button, leave the accumulated mode alone (modifiers are never
consulted). -/
def pressStep (button : Nat) (c : ClientWindow) (m : Mode) (bind : MouseBind) : Mode :=
  if button = bind.bind then
    match bind.action with
    | Action.windowMove => Mode.move c
    | Action.windowResize => Mode.resize c
    | _ => m
  else m

/-- `Workspace::send_event`: the structural/input event dispatcher. -/
def Workspace.send_event (ws : Workspace) (e : Event) : Workspace :=
  match e with
  | Event.windowCreate _ => ws
  | Event.windowConfigureRequest window x y width height border_width above detail value_mask =>
    let changes : XWindowChanges :=
      { x := x, y := y, width := width, height := height,
        border_width := border_width, sibling := above, stack_mode := detail }
    let ws :=
      match ws.get_client window with
      | some q => { ws with server := q.2.frame.configure ws.server changes value_mask }
      | none => ws
    { ws with server := (Window.from_xid window).configure ws.server changes value_mask }
  | Event.windowMapRequest window =>
    match ws.get_client window with
    | some _ => ws
    | none => ws.push (Window.from_xid window)
  | Event.windowUnmap window =>
    match ws.get_client window with
    | some q =>
      { ws with clients := ws.clients.eraseIdx q.1, server := q.2.destroy ws.server true }
    | none => ws
  | Event.windowDestroy window =>
    match ws.get_client window with
    | some q =>
      { ws with clients := ws.clients.eraseIdx q.1, server := q.2.destroy ws.server false }
    | none => ws
  | Event.buttonPress button x_root y_root subwindow =>
    let ws := { ws with prev_mouse := (x_root, y_root) }
    match ws.get_client_from_frame subwindow with
    | some q =>
      let mode := ws.config.mousebinds.foldl (pressStep button q.2) ws.mode
      let ws := { ws with mode := mode, clients := ws.clients.eraseIdx q.1 }
      ws.focus_update q.2
    | none => ws
  | Event.pointerMotion x_root y_root =>
    let ws :=
      match ws.mode with
      | Mode.move client =>
        let properties := client.frame.get_properties ws.server
        let changes : XWindowChanges :=
          { x := addI32 properties.x (subI32 x_root ws.prev_mouse.1)
            y := addI32 properties.y (subI32 y_root ws.prev_mouse.2)
            width := 0, height := 0, border_width := 0, sibling := 0, stack_mode := 0 }
        { ws with server := client.frame.configure ws.server changes (CWX ||| CWY) }
      | Mode.resize client =>
        let properties := client.internal.get_properties ws.server
        let changes : XWindowChanges :=
          { x := 0, y := 0
            width := addI32 properties.width (subI32 x_root ws.prev_mouse.1)
            height := addI32 properties.height (subI32 y_root ws.prev_mouse.2)
            border_width := 0, sibling := 0, stack_mode := 0 }
        let s := client.internal.configure ws.server changes (CWWidth ||| CWHeight)
        let s := client.frame.configure s changes (CWWidth ||| CWHeight)
        { ws with server := s }
      | Mode.idle => ws
    { ws with prev_mouse := (x_root, y_root) }
  | Event.buttonRelease _ => { ws with mode := Mode.idle }
  | _ => ws

end Nerdwm

namespace NerdwmWm

/-- `wm::actions::ActionType`. -/
inductive ActionType where
  | floatingWindowMove
  | floatingWindowResize
  | windowFocus
  | windowManagerQuit
  | windowManagerRestart
deriving DecidableEq, Repr

/-- `wm::config::KeyBind`, with `get_modifier_mask` already applied. -/
structure KeyBind where
  keysym : Nat
  modifier_mask : Nat
deriving DecidableEq, Repr

/-- `wm::config::MouseBind`, with `get_modifier_mask` already applied. -/
structure MouseBind where
  button : Nat
  modifier_mask : Nat
deriving DecidableEq, Repr

/-- `wm::config::ActionConfig`. -/
structure ActionConfig where
  ty : ActionType
  keybind : Option KeyBind
  mousebind : Option MouseBind
deriving DecidableEq, Repr

/-- `wm::Mode`. -/
inductive Mode where
  | modeNone
  | movingWindow
  | resizingWindow
deriving DecidableEq, Repr

/-- The events consumed by `WindowManager::event_to_action`, with the fields
it reads (`detail` is the button, `state` the modifier mask). -/
inductive Event where
  | buttonPress (detail state : Nat)
  | buttonRelease (detail state : Nat)
  | pointerMotion (root_x root_y : Int) (child : Nat)
  | windowMapRequest (window : Nat)
  | other
deriving DecidableEq, Repr

/-- The `for action in self.config.get_actions()` loop of the
`Event::ButtonPress` arm: the first action owning a mousebind whose
modifier mask equals the event's `state` and whose button equals the
event's `detail` is returned, switching the mode to `MovingWindow` when
its type is `FloatingWindowMove`. -/
def pressLoop (mode : Mode) (detail state : Nat) :
    List ActionConfig → Mode × Option ActionType
  | [] => (mode, none)
  | a :: rest =>
    match a.mousebind with
    | some b =>
      if b.modifier_mask = state ∧ b.button = detail then
        ((if a.ty = ActionType.floatingWindowMove then Mode.movingWindow else mode), some a.ty)
      else pressLoop mode detail state rest
    | none => pressLoop mode detail state rest

/-- The `for action in self.config.get_actions()` loop of the
`Event::ButtonRelease` arm: the first action owning a mousebind whose
button equals the event's `detail` is returned (modifier masks are
ignored), resetting the mode to `None` when its type is
`FloatingWindowMove`. -/
def releaseLoop (mode : Mode) (detail : Nat) :
    List ActionConfig → Mode × Option ActionType
  | [] => (mode, none)
  | a :: rest =>
    match a.mousebind with
    | some b =>
      if b.button = detail then
        ((if a.ty = ActionType.floatingWindowMove then Mode.modeNone else mode), some a.ty)
      else releaseLoop mode detail rest
    | none => releaseLoop mode detail rest

/-- `WindowManager::event_to_action`, returning the new mode and the type of
the emitted action (if any). -/
def event_to_action (mode : Mode) (actions : List ActionConfig) (e : Event) :
    Mode × Option ActionType :=
  match e with
  | Event.buttonPress detail state =>
    if mode = Mode.modeNone then pressLoop mode detail state actions else (mode, none)
  | Event.buttonRelease detail _ =>
    if mode = Mode.movingWindow then releaseLoop mode detail actions else (mode, none)
  | Event.pointerMotion _ _ _ =>
    if mode = Mode.movingWindow then (mode, some ActionType.floatingWindowMove)
    else (mode, none)
  | Event.windowMapRequest _ => (mode, some ActionType.windowFocus)
  | Event.other => (mode, none)

/-- First index of `x` in `l` (`Vec::iter().position`). -/
def posOf (l : List Nat) (x : Nat) : Option Nat :=
  match l with
  | [] => none
  | y :: rest => if y = x then some 0 else (posOf rest x).map (· + 1)

/-- `wm::desktop::Desktop`: the client stack of one virtual desktop,
together with the root-window hints most recently published for it
(`_NET_CLIENT_LIST` and `_NET_ACTIVE_WINDOW`); `none` means the property
has never been written.  The layout manager is `BlankLayout`, whose
`configure` is a no-op. -/
structure Desktop where
  clients : List Nat
  published_client_list : Option (List Nat)
  published_active : Option (Option Nat)

/-- `Desktop::focus`: move the client to the front of the stack (inserting
it if absent), map it, publish it as the active window and republish the
client list. -/
def Desktop.focus (d : Desktop) (client : Nat) : Desktop :=
  let clients :=
    match posOf d.clients client with
    | some p => client :: d.clients.eraseIdx p
    | none => client :: d.clients
  { clients := clients
    published_active := some (some client)
    published_client_list := some clients }

/-- `Desktop::remove`: drop the client from the stack if present, unmap it,
and republish the client list. -/
def Desktop.remove (d : Desktop) (client : Nat) : Desktop :=
  let clients :=
    match posOf d.clients client with
    | some p => d.clients.eraseIdx p
    | none => d.clients
  { d with clients := clients, published_client_list := some clients }

/-- `Desktop::show`: map every owned client and republish the client list. -/
def Desktop.showAll (d : Desktop) : Desktop :=
  { d with published_client_list := some d.clients }

/-- `Desktop::hide`: unmap every owned client and publish an empty client
list; the `clients` stack itself is left untouched. -/
def Desktop.hide (d : Desktop) : Desktop :=
  { d with published_client_list := some [] }

/-- One request emitted during `WindowManager::init`. -/
inductive InitOp where
  | setRootEventMask
  | setSupported
  | setPid
  | setName (name : String)
  | updateActiveWindow (w : Option Nat)
  | updateDesktops (names : List String)
  | flush
  | grabServer
  | ungrabServer
  | grabKey (keycode modifier_mask : Nat)
  | grabButton (button modifier_mask : Nat)
deriving DecidableEq, Repr

/-- The requests emitted for one configured action inside `init`'s grab
loop: `grab_keybind` (skipped when no keycode resolves for the keysym,
its error being discarded) followed by `grab_mousebind`. -/
def grabOpsFor (keycodeOf : Nat → Option Nat) (a : ActionConfig) : List InitOp :=
  (match a.keybind with
   | some k =>
     match keycodeOf k.keysym with
     | some kc => [InitOp.grabKey kc k.modifier_mask]
     | none => []
   | none => []) ++
  (match a.mousebind with
   | some b => [InitOp.grabButton b.button b.modifier_mask]
   | none => [])

/-- `WindowManager::init`, as the ordered list of requests it emits: root
event mask, EWMH hints, flush, server grab, per-action binding grabs (in a
`for` loop), server ungrab, flush.  No enumeration or adoption of existing
windows is performed (the source holds a `TODO` there). -/
def init_ops (actions : List ActionConfig) (keycodeOf : Nat → Option Nat)
    (desktopNames : List String) : List InitOp :=
  let t : List InitOp :=
    [InitOp.setRootEventMask, InitOp.setSupported, InitOp.setPid, InitOp.setName "nerdwm",
     InitOp.updateActiveWindow none, InitOp.updateDesktops desktopNames, InitOp.flush,
     InitOp.grabServer]
  let t := actions.foldl (fun t a => t ++ grabOpsFor keycodeOf a) t
  t ++ [InitOp.ungrabServer, InitOp.flush]

/-- First index of `x` in `l` for init traces. -/
def posOfOp (l : List InitOp) (x : InitOp) : Option Nat :=
  match l with
  | [] => none
  | y :: rest => if y = x then some 0 else (posOfOp rest x).map (· + 1)

/-- The release behaviour of `event_to_action` as the amended claim states
it: the first configured action owning a mousebind on the released button
decides, and the mode leaves `MovingWindow` exactly when that action's
type is `FloatingWindowMove`; with no such action the mode is kept. -/
def releaseModeSpec (actions : List ActionConfig) (detail : Nat) : Mode :=
  match actions.find? (fun a =>
      match a.mousebind with
      | some b => b.button == detail
      | none => false) with
  | some a =>
    if a.ty = ActionType.floatingWindowMove then Mode.modeNone else Mode.movingWindow
  | none => Mode.movingWindow

end NerdwmWm

namespace Nerdwm

/-- The mode a single mousebind dictates for client `c`, when it dictates
one (`WindowMove` and `WindowResize` are the only mode-setting actions). -/
def bindModeOf (a : Action) (c : ClientWindow) : Option Mode :=
  match a with
  | Action.windowMove => some (Mode.move c)
  | Action.windowResize => some (Mode.resize c)
  | _ => none

/-! ### Concrete fixtures used by witnesses and counterexamples -/

/-- A fresh server: root window `1`, next allocatable id `100`, all
attributes zeroed. -/
def emptyServer : XServer :=
  { root := 1, nextXid := 100, parentOf := fun _ => 0, geom := fun _ => ⟨0, 0, 0, 0⟩,
    borderWidth := fun _ => 0, borderColor := fun _ => 0, mapped := fun _ => false,
    saveSet := fun _ => false, trace := [] }

/-- A border configuration with distinguishable focused (width 3, red) and
unfocused (width 1, gray) styles, and `WindowMove` bound to button 1. -/
def testConfig : Config :=
  { border := ⟨3, 0xff0000⟩, border_unfocused := ⟨1, 0x333333⟩,
    mousebinds := [⟨Action.windowMove, 1⟩] }

/-- An empty workspace over the fresh server. -/
def ws0 : Workspace :=
  { server := emptyServer, clients := [], config := testConfig,
    prev_mouse := (0, 0), mode := Mode.idle }

/-- Workspace after adopting windows `10`, `20`, `30` in that order
(frames `100`, `101`, `102`). -/
def ws3 : Workspace := ((ws0.push ⟨10⟩).push ⟨20⟩).push ⟨30⟩

/-- Workspace managing the single window `10` (frame `100`). -/
def wsOne : Workspace := ws0.push ⟨10⟩

/-- Base state for the move-delta scenario: window `10` sits at
`(100, 100)` so the frame adopting it is created there too. -/
def c3base : Workspace :=
  { server := { emptyServer with geom := upd (fun _ => ⟨0, 0, 0, 0⟩) 10 ⟨100, 100, 40, 40⟩ },
    clients := [], config := testConfig, prev_mouse := (0, 0), mode := Mode.idle }

/-- Move scenario after adopting window `10`: its frame `100` is at
`(100, 100)`. -/
def c3ws1 : Workspace := c3base.push ⟨10⟩

/-- Move scenario after the button-1 press at root `(50, 50)` on frame
`100`: mode is `Move`, last pointer is `(50, 50)`. -/
def c3ws2 : Workspace := c3ws1.send_event (Event.buttonPress 1 50 50 100)

/-- Move scenario after the first motion to `(55, 54)`. -/
def c3ws3 : Workspace := c3ws2.send_event (Event.pointerMotion 55 54)

/-- Move scenario after the second motion to `(60, 50)`. -/
def c3ws4 : Workspace := c3ws3.send_event (Event.pointerMotion 60 50)

/-- The client of the resize scenario: window `10` behind frame `100`. -/
def c4client : ClientWindow := ⟨⟨10⟩, ⟨100⟩⟩

/-- Resize scenario: a `20×20` client in `Resizing` mode with last pointer
`(100, 100)`, so a motion to `(0, 0)` is a `(-100, -100)` delta. -/
def c4ws : Workspace :=
  { server := { emptyServer with
      geom := upd (upd (fun _ => ⟨0, 0, 0, 0⟩) 10 ⟨0, 0, 20, 20⟩) 100 ⟨0, 0, 26, 26⟩ },
    clients := [c4client], config := testConfig,
    prev_mouse := (100, 100), mode := Mode.resize c4client }

/-- A configuration with two bindings on the same button 1: first
`WindowMove`, then `WindowResize`. -/
def c5cfg : Config :=
  { border := ⟨3, 0xff0000⟩, border_unfocused := ⟨1, 0x333333⟩,
    mousebinds := [⟨Action.windowMove, 1⟩, ⟨Action.windowResize, 1⟩] }

/-- The client of the tie-break scenario: window `10` behind frame `100`. -/
def c5client : ClientWindow := ⟨⟨10⟩, ⟨100⟩⟩

/-- Tie-break scenario: one managed client, two same-button bindings. -/
def c5ws : Workspace :=
  { server := emptyServer, clients := [c5client], config := c5cfg,
    prev_mouse := (0, 0), mode := Mode.idle }

end Nerdwm

namespace NerdwmWm

/-- An empty virtual desktop with no hints published yet. -/
def d0 : Desktop := { clients := [], published_client_list := none, published_active := none }

/-- A configuration with a single action: `FloatingWindowMove` on button 1
with modifier mask 8. -/
def c9actions : List ActionConfig :=
  [⟨ActionType.floatingWindowMove, none, some ⟨1, 8⟩⟩]

/-- The init request sequence for `c9actions`, one desktop named `"main"`,
and no resolvable keycodes. -/
def c9ops : List InitOp := init_ops c9actions (fun _ => none) ["main"]

end NerdwmWm

/-! ## Lemmas and claim theorems -/

namespace Nerdwm

theorem wrap32_eq_of_range (n : Int) (h1 : -(2 ^ 31) ≤ n) (h2 : n < 2 ^ 31) :
    wrap32 n = n := by
  unfold wrap32
  have h3 : (0 : Int) ≤ n + 2 ^ 31 := by omega
  have h4 : n + 2 ^ 31 < 2 ^ 32 := by omega
  rw [Int.emod_eq_of_lt h3 h4]
  omega

theorem addI32_eq_of_range (a b : Int) (h1 : -(2 ^ 31) ≤ a + b) (h2 : a + b < 2 ^ 31) :
    addI32 a b = a + b := wrap32_eq_of_range _ h1 h2

theorem subI32_eq_of_range (a b : Int) (h1 : -(2 ^ 31) ≤ a - b) (h2 : a - b < 2 ^ 31) :
    subI32 a b = a - b := wrap32_eq_of_range _ h1 h2

@[simp] theorem upd_same {α : Type} (f : Nat → α) (k : Nat) (v : α) : upd f k v k = v := by
  simp [upd]

@[simp] theorem upd_other {α : Type} (f : Nat → α) (k : Nat) (v : α) (n : Nat) (h : n ≠ k) :
    upd f k v n = f n := by
  simp [upd, h]

@[simp] theorem unfocus_update_clients (ws : Workspace) (i : Nat) :
    (ws.unfocus_update i).clients = ws.clients := by
  unfold Workspace.unfocus_update
  split
  · split <;> rfl
  · rfl

@[simp] theorem unfocus_update_mode (ws : Workspace) (i : Nat) :
    (ws.unfocus_update i).mode = ws.mode := by
  unfold Workspace.unfocus_update
  split
  · split <;> rfl
  · rfl

@[simp] theorem focus_update_clients (ws : Workspace) (c : ClientWindow) :
    (ws.focus_update c).clients = c :: ws.clients := by
  simp only [Workspace.focus_update]
  split <;> simp

@[simp] theorem focus_update_mode (ws : Workspace) (c : ClientWindow) :
    (ws.focus_update c).mode = ws.mode := by
  simp only [Workspace.focus_update]
  split <;> simp

/-- C1 — the focus invariant FAILS on the code: after pushing windows
`10`, `20`, `30` (frames `100`, `101`, `102`), the frame at stack index 1
still carries the focused border style `(3, 0xff0000)` instead of the
unfocused `(1, 0x333333)`: `unfocus_update 1` only restyles when exactly
two clients are on the stack (`clients.len() == index + 1`), so the third
push never unfocuses the second frame. -/
theorem c1_focus_invariant_fails_after_three_pushes :
    ws3.clients.map (fun c =>
        (ws3.server.borderWidth c.frame.xid, ws3.server.borderColor c.frame.xid)) =
      [(3, 0xff0000), (3, 0xff0000), (1, 0x333333)] ∧
    ((3 : Int), (0xff0000 : Nat)) ≠ ((1 : Int), (0x333333 : Nat)) := by
  exact ⟨by decide, by decide⟩

/-- C6 — client teardown order: `ClientWindow::destroy` emits
reparent-to-root (exactly when `reparent` is true), then unmap-frame, then
save-set removal, then frame destruction, in this order; and the
`WindowUnmap` handler invokes it with `true` while the `WindowDestroy`
handler invokes it with `false`. -/
theorem c6_teardown_order_and_graceful_flag :
    (∀ (s : XServer) (c : ClientWindow),
      (ClientWindow.destroy c s true).trace =
        s.trace ++ [XOp.reparent c.internal.xid s.root, XOp.unmapW c.frame.xid,
          XOp.setSaveSet c.frame.xid false, XOp.destroyW c.frame.xid]) ∧
    (∀ (s : XServer) (c : ClientWindow),
      (ClientWindow.destroy c s false).trace =
        s.trace ++ [XOp.unmapW c.frame.xid, XOp.setSaveSet c.frame.xid false,
          XOp.destroyW c.frame.xid]) ∧
    (∀ (ws : Workspace) (w pos : Nat) (c : ClientWindow),
      ws.get_client w = some (pos, c) →
      (ws.send_event (Event.windowUnmap w)).server = ClientWindow.destroy c ws.server true ∧
      (ws.send_event (Event.windowDestroy w)).server = ClientWindow.destroy c ws.server false ∧
      (ws.send_event (Event.windowUnmap w)).clients = ws.clients.eraseIdx pos) := by
  refine ⟨?_, ?_, ?_⟩
  · intro s c
    simp [ClientWindow.destroy, Window.reparent, Window.unmap, Window.set_save_set,
      Window.destroyWin, Window.from_xid]
  · intro s c
    simp [ClientWindow.destroy, Window.unmap, Window.set_save_set, Window.destroyWin]
  · intro ws w pos c h
    refine ⟨?_, ?_, ?_⟩ <;> simp only [Workspace.send_event, h]

/-- C6 witness: the teardown facts instantiated on the workspace managing
window `10` behind frame `100`. -/
theorem c6_teardown_witness :
    (wsOne.send_event (Event.windowUnmap 10)).server =
      ClientWindow.destroy ⟨⟨10⟩, ⟨100⟩⟩ wsOne.server true ∧
    (wsOne.send_event (Event.windowDestroy 10)).server =
      ClientWindow.destroy ⟨⟨10⟩, ⟨100⟩⟩ wsOne.server false ∧
    (wsOne.send_event (Event.windowUnmap 10)).clients = wsOne.clients.eraseIdx 0 :=
  c6_teardown_order_and_graceful_flag.2.2 wsOne 10 0 ⟨⟨10⟩, ⟨100⟩⟩ (by decide)

/-- C10 — `Workspace::pop` is partial exactly as claimed: it fails (the
`Vec::remove` calls panic, modelled as `none`) precisely when the index is
out of range or at most one client is on the stack; with two or more
clients and a valid index it returns normally. -/
theorem c10_pop_panics_iff :
    ∀ (ws : Workspace) (i : Nat),
      ws.pop i = none ↔ ws.clients.length ≤ 1 ∨ ws.clients.length ≤ i := by
  intro ws i
  cases h : ws.clients[i]? with
  | none =>
    have hlen := List.getElem?_eq_none_iff.mp h
    simp only [Workspace.pop, h]
    exact iff_of_true trivial (Or.inr hlen)
  | some client =>
    have hlt : i < ws.clients.length := (List.getElem?_eq_some_iff.mp h).1
    cases he : ws.clients.eraseIdx i with
    | nil =>
      rcases List.eraseIdx_eq_nil.mp he with h1 | h2
      · rw [h1] at hlt; simp at hlt
      · simp only [Workspace.pop, h, he]
        exact iff_of_true trivial (Or.inl (by omega))
    | cons f rest =>
      have hlen : (ws.clients.eraseIdx i).length = ws.clients.length - 1 := by
        rw [List.length_eraseIdx]
        simp [hlt]
      rw [he] at hlen
      simp only [Workspace.pop, h, he, List.length_cons] at *
      constructor
      · intro hc
        exact absurd hc (by simp)
      · intro hor
        omega

end Nerdwm

namespace NerdwmWm

/-- C8 — counterexample: `Desktop::hide` publishes an EMPTY client list
while leaving the client stack untouched, so after `hide` on a desktop
holding window `5` the most recently published list (`[]`) differs from
the live clients sequence (`[5]`). -/
theorem c8_hide_publishes_empty_counterexample :
    ((d0.focus 5).hide).published_client_list = some [] ∧
    ((d0.focus 5).hide).clients = [5] ∧
    some ([] : List Nat) ≠ some [5] := by
  exact ⟨rfl, rfl, by decide⟩

/-- C8 (amended) — after `focus`, `remove` and `show` the published
client-list property equals the current client stack in stack order; after
`hide`, however, the empty list is published while the client stack is
left unchanged. -/
theorem c8_hint_consistency_amended :
    ∀ (d : Desktop) (c : Nat),
      (d.focus c).published_client_list = some (d.focus c).clients ∧
      (d.remove c).published_client_list = some (d.remove c).clients ∧
      d.showAll.published_client_list = some d.showAll.clients ∧
      d.hide.published_client_list = some [] ∧
      d.hide.clients = d.clients := by
  intro d c
  refine ⟨?_, ?_, rfl, rfl, rfl⟩
  · cases h : posOf d.clients c <;> simp [Desktop.focus, h]
  · cases h : posOf d.clients c <;> simp [Desktop.remove, h]

/-- C9 — counterexample: with one configured mousebind, `init` emits the
button grab BEFORE releasing the server grab (positions 8 and 9 of the
request sequence), and no adoption of pre-existing windows appears between
the grab and the ungrab, contradicting the claimed
mask → hints → grab → adopt → ungrab → grab-bindings order. -/
theorem c9_startup_order_counterexample :
    c9ops = [InitOp.setRootEventMask, InitOp.setSupported, InitOp.setPid,
      InitOp.setName "nerdwm", InitOp.updateActiveWindow none,
      InitOp.updateDesktops ["main"], InitOp.flush, InitOp.grabServer,
      InitOp.grabButton 1 8, InitOp.ungrabServer, InitOp.flush] ∧
    posOfOp c9ops (InitOp.grabButton 1 8) = some 8 ∧
    posOfOp c9ops InitOp.ungrabServer = some 9 ∧ (8 : Nat) < 9 := by
  exact ⟨by decide, by decide, by decide, by decide⟩

theorem foldl_append_flatten {α β : Type} (f : α → List β) :
    ∀ (l : List α) (t : List β),
      l.foldl (fun t a => t ++ f a) t = t ++ (l.map f).flatten := by
  intro l
  induction l with
  | nil => intro t; simp
  | cons a rest ih => intro t; simp [List.foldl_cons, ih]

/-- C9 (amended) — `init` emits, in order: the root event mask, the
initial hints (supported, pid, name, no active window, desktop names), a
flush, the server grab, then — still under the grab — one key/button grab
request per configured binding, then the ungrab and a final flush; every
request between the grab and the ungrab is a key or button grab, and no
enumeration or adoption of pre-existing windows occurs anywhere (the
source leaves it as a TODO). -/
theorem c9_startup_order_amended :
    ∀ (actions : List ActionConfig) (keycodeOf : Nat → Option Nat) (names : List String),
      init_ops actions keycodeOf names =
        [InitOp.setRootEventMask, InitOp.setSupported, InitOp.setPid,
         InitOp.setName "nerdwm", InitOp.updateActiveWindow none,
         InitOp.updateDesktops names, InitOp.flush, InitOp.grabServer] ++
        (actions.map (grabOpsFor keycodeOf)).flatten ++
        [InitOp.ungrabServer, InitOp.flush] ∧
      ∀ op ∈ (actions.map (grabOpsFor keycodeOf)).flatten,
        (∃ k m, op = InitOp.grabKey k m) ∨ (∃ b m, op = InitOp.grabButton b m) := by
  intro actions keycodeOf names
  constructor
  · simp [init_ops, foldl_append_flatten]
  · intro op hop
    rcases List.mem_flatten.mp hop with ⟨l, hl, hopl⟩
    rcases List.mem_map.mp hl with ⟨a, _, rfl⟩
    unfold grabOpsFor at hopl
    rcases List.mem_append.mp hopl with h | h
    · split at h
      · split at h
        · simp at h
          exact Or.inl ⟨_, _, h⟩
        · simp at h
      · simp at h
    · split at h
      · simp at h
        exact Or.inr ⟨_, _, h⟩
      · simp at h

/-- C2 — counterexample: in `WindowManager::event_to_action`, a
`ButtonRelease` of button 3 while `MovingWindow`, with only a button-1
`FloatingWindowMove` binding configured, leaves the mode `MovingWindow`
instead of returning it to idle: the release IS matched against the
configured bindings. -/
theorem c2_release_counterexample :
    event_to_action Mode.movingWindow c9actions (Event.buttonRelease 3 0) =
      (Mode.movingWindow, none) ∧
    Mode.movingWindow ≠ Mode.modeNone := by
  exact ⟨by decide, by decide⟩

theorem releaseLoop_eq_spec (detail : Nat) (actions : List ActionConfig) :
    (releaseLoop Mode.movingWindow detail actions).1 = releaseModeSpec actions detail := by
  induction actions with
  | nil => rfl
  | cons a rest ih =>
    cases hm : a.mousebind with
    | none =>
      rw [releaseModeSpec, List.find?_cons_of_neg _ (by simp [hm])]
      simpa [releaseLoop, hm] using ih
    | some b =>
      by_cases hb : b.button = detail
      · rw [releaseModeSpec, List.find?_cons_of_pos _ (by simp [hm, hb])]
        simp [releaseLoop, hm, hb]
      · rw [releaseModeSpec, List.find?_cons_of_neg _ (by simp [hm, hb])]
        simpa [releaseLoop, hm, hb] using ih

/-- C2 (amended) — in the xlib `Workspace` machine a `ButtonRelease` does
reset the mode to idle unconditionally; but in the xcb
`WindowManager::event_to_action` machine a release changes the mode only
when the current mode is `MovingWindow`, and then the first configured
action owning a mousebind on the released button decides: the mode
returns to idle exactly when that action is a `FloatingWindowMove`
(modifiers are ignored, but the button is matched against the bindings). -/
theorem c2_release_behaviour_amended :
    (∀ (ws : Nerdwm.Workspace) (b : Nat),
       (ws.send_event (Nerdwm.Event.buttonRelease b)).mode = Nerdwm.Mode.idle) ∧
    (∀ (mode : Mode) (actions : List ActionConfig) (detail state : Nat),
       (event_to_action mode actions (Event.buttonRelease detail state)).1 =
         if mode = Mode.movingWindow then releaseModeSpec actions detail else mode) := by
  constructor
  · intro ws b; rfl
  · intro mode actions detail state
    cases mode with
    | movingWindow => simp [event_to_action, releaseLoop_eq_spec]
    | modeNone => simp [event_to_action]
    | resizingWindow => simp [event_to_action]

end NerdwmWm

namespace Nerdwm

theorem foldl_pressStep_const (button : Nat) (c : ClientWindow) (l : List MouseBind)
    (m : Mode) (h : ∀ b ∈ l, b.bind = button → bindModeOf b.action c = none) :
    l.foldl (pressStep button c) m = m := by
  induction l generalizing m with
  | nil => rfl
  | cons b rest ih =>
    have hb := h b (List.mem_cons_self b rest)
    rw [List.foldl_cons]
    have hstep : pressStep button c m b = m := by
      unfold pressStep
      by_cases hbb : button = b.bind
      · have hnone := hb hbb.symm
        cases hact : b.action <;>
          simp [bindModeOf, hact] at hnone ⊢
      · simp [hbb]
    rw [hstep]
    exact ih m (fun b' hb' => h b' (List.mem_cons_of_mem _ hb'))

theorem pressStep_sets (button : Nat) (c : ClientWindow) (b : MouseBind) (m0 m : Mode)
    (hb : b.bind = button) (hm : bindModeOf b.action c = some m) :
    pressStep button c m0 b = m := by
  unfold pressStep
  rw [if_pos hb.symm]
  cases hact : b.action <;> simp [bindModeOf, hact] at hm ⊢ <;> exact hm

/-- C5 — counterexample: with bindings `[WindowMove@button1,
WindowResize@button1]`, a button-1 press on a managed frame puts the
workspace in `Resize` mode — the mode dictated by the SECOND (last)
matching binding — not the `Move` mode the first-match claim dictates:
the loop has no early exit, so later matches overwrite earlier ones. -/
theorem c5_first_match_counterexample :
    (c5ws.send_event (Event.buttonPress 1 7 8 100)).mode = Mode.resize c5client ∧
    Mode.resize c5client ≠ Mode.move c5client := by
  exact ⟨by decide, by decide⟩

/-- C5 (amended) — last-match tie-break: when a press matches several
configured bindings on the same button, the mode transition performed is
the one dictated by the LAST matching mode-setting binding (`WindowMove`
or `WindowResize`) in configuration order; matching bindings with other
actions, and bindings on other buttons, leave the mode accumulator
untouched (modifier sets are never consulted at all). -/
theorem c5_last_match_wins (ws : Workspace) (button : Nat) (xr yr : Int) (sub : Nat)
    (pos : Nat) (c : ClientWindow) (l1 l2 : List MouseBind) (b : MouseBind) (m : Mode)
    (hfind : ws.get_client_from_frame sub = some (pos, c))
    (hsplit : ws.config.mousebinds = l1 ++ b :: l2)
    (hb : b.bind = button)
    (hm : bindModeOf b.action c = some m)
    (hlast : ∀ b' ∈ l2, b'.bind = button → bindModeOf b'.action c = none) :
    (ws.send_event (Event.buttonPress button xr yr sub)).mode = m := by
  have hfind' : ({ ws with prev_mouse := (xr, yr) } : Workspace).get_client_from_frame sub
      = some (pos, c) := hfind
  simp only [Workspace.send_event]
  rw [hfind']
  simp only [focus_update_mode]
  show List.foldl (pressStep button c) ws.mode ws.config.mousebinds = m
  rw [hsplit, List.foldl_append, List.foldl_cons,
    pressStep_sets button c b _ m hb hm]
  exact foldl_pressStep_const button c l2 m hlast

/-- C5 witness: the amended theorem applied to the two-binding fixture —
the resulting mode is the `Resize` dictated by the last matching binding. -/
theorem c5_last_match_witness :
    (c5ws.send_event (Event.buttonPress 1 7 8 100)).mode = Mode.resize c5client :=
  c5_last_match_wins c5ws 1 7 8 100 0 c5client [⟨Action.windowMove, 1⟩] []
    ⟨Action.windowResize, 1⟩ (Mode.resize c5client)
    (by decide) (by decide) (by decide) (by decide)
    (by intro b' hb'; simp at hb')

end Nerdwm

namespace Nerdwm

/-- C3 — move delta correctness: while in `Moving` mode, a pointer-motion
event configures the frame to its current position plus the delta between
the event's root coordinates and the last observed pointer position
(whenever those sums stay in `i32` range), and then records the event's
coordinates as the new last pointer position; size, client stack and mode
are untouched. -/
theorem c3_move_delta_correct (ws : Workspace) (c : ClientWindow) (mx my : Int)
    (hmode : ws.mode = Mode.move c)
    (hdx1 : -(2 ^ 31) ≤ mx - ws.prev_mouse.1) (hdx2 : mx - ws.prev_mouse.1 < 2 ^ 31)
    (hdy1 : -(2 ^ 31) ≤ my - ws.prev_mouse.2) (hdy2 : my - ws.prev_mouse.2 < 2 ^ 31)
    (hx1 : -(2 ^ 31) ≤ (ws.server.geom c.frame.xid).x + (mx - ws.prev_mouse.1))
    (hx2 : (ws.server.geom c.frame.xid).x + (mx - ws.prev_mouse.1) < 2 ^ 31)
    (hy1 : -(2 ^ 31) ≤ (ws.server.geom c.frame.xid).y + (my - ws.prev_mouse.2))
    (hy2 : (ws.server.geom c.frame.xid).y + (my - ws.prev_mouse.2) < 2 ^ 31) :
    (ws.send_event (Event.pointerMotion mx my)).server.geom c.frame.xid =
      { ws.server.geom c.frame.xid with
          x := (ws.server.geom c.frame.xid).x + (mx - ws.prev_mouse.1)
          y := (ws.server.geom c.frame.xid).y + (my - ws.prev_mouse.2) } ∧
    (ws.send_event (Event.pointerMotion mx my)).prev_mouse = (mx, my) ∧
    (ws.send_event (Event.pointerMotion mx my)).clients = ws.clients ∧
    (ws.send_event (Event.pointerMotion mx my)).mode = ws.mode := by
  have edx : subI32 mx ws.prev_mouse.1 = mx - ws.prev_mouse.1 :=
    subI32_eq_of_range _ _ hdx1 hdx2
  have edy : subI32 my ws.prev_mouse.2 = my - ws.prev_mouse.2 :=
    subI32_eq_of_range _ _ hdy1 hdy2
  have ex : addI32 (ws.server.geom c.frame.xid).x (mx - ws.prev_mouse.1) =
      (ws.server.geom c.frame.xid).x + (mx - ws.prev_mouse.1) :=
    addI32_eq_of_range _ _ hx1 hx2
  have ey : addI32 (ws.server.geom c.frame.xid).y (my - ws.prev_mouse.2) =
      (ws.server.geom c.frame.xid).y + (my - ws.prev_mouse.2) :=
    addI32_eq_of_range _ _ hy1 hy2
  simp only [Workspace.send_event, hmode, Window.configure, Window.get_properties,
    CWX, CWY, CWWidth, CWHeight, CWBorderWidth, edx, edy, ex, ey]
  refine ⟨?_, trivial, trivial, trivial⟩
  rw [if_pos (by decide : ((1 : Nat) ||| 2) &&& 1 ≠ 0),
    if_pos (by decide : ((1 : Nat) ||| 2) &&& 2 ≠ 0),
    if_neg (by decide : ¬((1 : Nat) ||| 2) &&& 4 ≠ 0),
    if_neg (by decide : ¬((1 : Nat) ||| 2) &&& 8 ≠ 0), upd_same]

end Nerdwm

namespace Nerdwm

/-- C3 witness: the spec's example — frame at `(100,100)`, press at
`(50,50)` enters `Moving`; the motion to `(55,54)` configures the frame by
the delta from the last pointer position, and the recorded chain gives
`(105,104)` and then `(110,100)` with last pointer `(60,50)`. -/
theorem c3_move_delta_witness :
    ((c3ws2.send_event (Event.pointerMotion 55 54)).server.geom
        (ClientWindow.mk ⟨10⟩ ⟨100⟩).frame.xid =
      { c3ws2.server.geom (ClientWindow.mk ⟨10⟩ ⟨100⟩).frame.xid with
          x := (c3ws2.server.geom (ClientWindow.mk ⟨10⟩ ⟨100⟩).frame.xid).x +
            (55 - c3ws2.prev_mouse.1)
          y := (c3ws2.server.geom (ClientWindow.mk ⟨10⟩ ⟨100⟩).frame.xid).y +
            (54 - c3ws2.prev_mouse.2) } ∧
      (c3ws2.send_event (Event.pointerMotion 55 54)).prev_mouse = (55, 54) ∧
      (c3ws2.send_event (Event.pointerMotion 55 54)).clients = c3ws2.clients ∧
      (c3ws2.send_event (Event.pointerMotion 55 54)).mode = c3ws2.mode) ∧
    (c3ws3.server.geom 100 = ⟨105, 104, 40, 40⟩ ∧
      c3ws4.server.geom 100 = ⟨110, 100, 40, 40⟩ ∧
      c3ws4.prev_mouse = (60, 50)) := by
  constructor
  · exact c3_move_delta_correct c3ws2 ⟨⟨10⟩, ⟨100⟩⟩ 55 54 (by decide) (by decide)
      (by decide) (by decide) (by decide) (by decide) (by decide) (by decide) (by decide)
  · exact ⟨by decide, by decide, by decide⟩

end Nerdwm

namespace Nerdwm

/-- C4 — counterexample: a `20×20` client in `Resizing` mode receiving a
`(-100,-100)` pointer delta is configured to width/height `-80` — a
negative size — for both the inner window and the frame: no minimum floor
exists anywhere in the handler. -/
theorem c4_resize_floor_counterexample :
    ((c4ws.send_event (Event.pointerMotion 0 0)).server.geom c4client.internal.xid).width
      = -80 ∧
    ((c4ws.send_event (Event.pointerMotion 0 0)).server.geom c4client.internal.xid).height
      = -80 ∧
    ((c4ws.send_event (Event.pointerMotion 0 0)).server.geom c4client.frame.xid).width
      = -80 ∧
    ¬(0 < (-80 : Int)) := by
  exact ⟨by decide, by decide, by decide, by decide⟩

/-- C4 (amended) — resize applies the raw delta with NO floor: while in
`Resizing` mode, each pointer-motion event sets the width/height of both
the inner window and the frame to the inner window's current size plus the
pointer delta (in `i32` arithmetic), even when the result is zero or
negative; the event's coordinates become the new last pointer position. -/
theorem c4_resize_unclamped (ws : Workspace) (c : ClientWindow) (mx my : Int)
    (hne : c.internal.xid ≠ c.frame.xid)
    (hmode : ws.mode = Mode.resize c)
    (hdx1 : -(2 ^ 31) ≤ mx - ws.prev_mouse.1) (hdx2 : mx - ws.prev_mouse.1 < 2 ^ 31)
    (hdy1 : -(2 ^ 31) ≤ my - ws.prev_mouse.2) (hdy2 : my - ws.prev_mouse.2 < 2 ^ 31)
    (hw1 : -(2 ^ 31) ≤ (ws.server.geom c.internal.xid).width + (mx - ws.prev_mouse.1))
    (hw2 : (ws.server.geom c.internal.xid).width + (mx - ws.prev_mouse.1) < 2 ^ 31)
    (hh1 : -(2 ^ 31) ≤ (ws.server.geom c.internal.xid).height + (my - ws.prev_mouse.2))
    (hh2 : (ws.server.geom c.internal.xid).height + (my - ws.prev_mouse.2) < 2 ^ 31) :
    (ws.send_event (Event.pointerMotion mx my)).server.geom c.internal.xid =
      { ws.server.geom c.internal.xid with
          width := (ws.server.geom c.internal.xid).width + (mx - ws.prev_mouse.1)
          height := (ws.server.geom c.internal.xid).height + (my - ws.prev_mouse.2) } ∧
    (ws.send_event (Event.pointerMotion mx my)).server.geom c.frame.xid =
      { ws.server.geom c.frame.xid with
          width := (ws.server.geom c.internal.xid).width + (mx - ws.prev_mouse.1)
          height := (ws.server.geom c.internal.xid).height + (my - ws.prev_mouse.2) } ∧
    (ws.send_event (Event.pointerMotion mx my)).prev_mouse = (mx, my) := by
  have edx : subI32 mx ws.prev_mouse.1 = mx - ws.prev_mouse.1 :=
    subI32_eq_of_range _ _ hdx1 hdx2
  have edy : subI32 my ws.prev_mouse.2 = my - ws.prev_mouse.2 :=
    subI32_eq_of_range _ _ hdy1 hdy2
  have ew : addI32 (ws.server.geom c.internal.xid).width (mx - ws.prev_mouse.1) =
      (ws.server.geom c.internal.xid).width + (mx - ws.prev_mouse.1) :=
    addI32_eq_of_range _ _ hw1 hw2
  have eh : addI32 (ws.server.geom c.internal.xid).height (my - ws.prev_mouse.2) =
      (ws.server.geom c.internal.xid).height + (my - ws.prev_mouse.2) :=
    addI32_eq_of_range _ _ hh1 hh2
  have m1 : ((12 : Nat)) &&& 1 = 0 := by decide
  have m2 : ((12 : Nat)) &&& 2 = 0 := by decide
  have m4 : ((12 : Nat)) &&& 4 ≠ 0 := by decide
  have m8 : ((12 : Nat)) &&& 8 ≠ 0 := by decide
  refine ⟨?_, ?_, ?_⟩ <;>
    simp [Workspace.send_event, hmode, Window.configure, Window.get_properties,
      CWX, CWY, CWWidth, CWHeight, CWBorderWidth, edx, edy, ew, eh,
      upd, hne, Ne.symm hne, m1, m2, m4, m8]

/-- C4 witness: the amended theorem applied to the `20×20` client with the
`(-100,-100)` delta. -/
theorem c4_resize_unclamped_witness :
    (c4ws.send_event (Event.pointerMotion 0 0)).server.geom c4client.internal.xid =
      { c4ws.server.geom c4client.internal.xid with
          width := (c4ws.server.geom c4client.internal.xid).width + (0 - c4ws.prev_mouse.1)
          height := (c4ws.server.geom c4client.internal.xid).height + (0 - c4ws.prev_mouse.2) } ∧
    (c4ws.send_event (Event.pointerMotion 0 0)).server.geom c4client.frame.xid =
      { c4ws.server.geom c4client.frame.xid with
          width := (c4ws.server.geom c4client.internal.xid).width + (0 - c4ws.prev_mouse.1)
          height := (c4ws.server.geom c4client.internal.xid).height + (0 - c4ws.prev_mouse.2) } ∧
    (c4ws.send_event (Event.pointerMotion 0 0)).prev_mouse = (0, 0) :=
  c4_resize_unclamped c4ws c4client 0 0 (by decide) (by decide)
    (by decide) (by decide) (by decide) (by decide)
    (by decide) (by decide) (by decide) (by decide)

end Nerdwm

namespace Nerdwm

@[simp] theorem unfocus_update_server_root (ws : Workspace) (i : Nat) :
    (ws.unfocus_update i).server.root = ws.server.root := by
  unfold Workspace.unfocus_update
  split
  · split <;> rfl
  · rfl

@[simp] theorem focus_update_server_root (ws : Workspace) (c : ClientWindow) :
    (ws.focus_update c).server.root = ws.server.root := by
  simp only [Workspace.focus_update]
  split <;> simp [unfocus_update_server_root, Window.raiseWin,
    Window.set_border_width, Window.set_border_color]

@[simp] theorem push_clients (ws : Workspace) (w : Window) :
    (ws.push w).clients = ClientWindow.mk w ⟨ws.server.nextXid⟩ :: ws.clients := by
  simp [Workspace.push, ClientWindow.from_window, Window.create, Window.get_properties,
    Window.set_event_mask, Window.set_save_set, Window.reparent, Window.mapWin,
    focus_update_clients]

@[simp] theorem push_server_root (ws : Workspace) (w : Window) :
    (ws.push w).server.root = ws.server.root := by
  simp only [Workspace.push, focus_update_server_root]
  rfl

theorem push_get_client (ws : Workspace) (id : Nat) :
    (ws.push (Window.from_xid id)).get_client id =
      some (0, ClientWindow.mk ⟨id⟩ ⟨ws.server.nextXid⟩) := by
  rw [Workspace.get_client, push_clients]
  simp [findClient, Window.get_xid, Window.from_xid]

/-- C7 — push/remove symmetry: pushing an unmanaged window and then
delivering the `WindowUnmap` event for it (the graceful removal path)
restores the client stack to exactly its previous sequence, and leaves the
window reparented back to the root. -/
theorem c7_push_remove_symmetry (ws : Workspace) (id : Nat)
    (_hnew : ws.get_client id = none) :
    ((ws.push (Window.from_xid id)).send_event (Event.windowUnmap id)).clients
      = ws.clients ∧
    ((ws.push (Window.from_xid id)).send_event (Event.windowUnmap id)).server.parentOf id
      = ws.server.root := by
  have hfind := push_get_client ws id
  constructor
  · simp only [Workspace.send_event, hfind, push_clients]
    rfl
  · simp only [Workspace.send_event, hfind]
    show (ClientWindow.destroy _ _ true).parentOf id = ws.server.root
    simp only [ClientWindow.destroy, Window.reparent, Window.unmap, Window.set_save_set,
      Window.destroyWin, Window.from_xid, if_pos]
    show upd _ id _ id = ws.server.root
    rw [upd_same]
    exact push_server_root ws (Window.from_xid id)

/-- C7 witness: the symmetry applied to the workspace already managing
window `10`, pushing and gracefully unmapping the fresh window `42`. -/
theorem c7_push_remove_symmetry_witness :
    ((wsOne.push (Window.from_xid 42)).send_event (Event.windowUnmap 42)).clients
      = wsOne.clients ∧
    ((wsOne.push (Window.from_xid 42)).send_event (Event.windowUnmap 42)).server.parentOf 42
      = wsOne.server.root :=
  c7_push_remove_symmetry wsOne 42 (by decide)

end Nerdwm

namespace NerdwmWm

/-- C9 witness: the amended startup-order theorem instantiated on the
one-mousebind configuration, with the button grab as the in-bracket op. -/
theorem c9_startup_order_amended_witness :
    (init_ops c9actions (fun _ => none) ["main"] =
      [InitOp.setRootEventMask, InitOp.setSupported, InitOp.setPid,
       InitOp.setName "nerdwm", InitOp.updateActiveWindow none,
       InitOp.updateDesktops ["main"], InitOp.flush, InitOp.grabServer] ++
      (c9actions.map (grabOpsFor (fun _ => none))).flatten ++
      [InitOp.ungrabServer, InitOp.flush]) ∧
    ((∃ k m, InitOp.grabButton 1 8 = InitOp.grabKey k m) ∨
      (∃ b m, InitOp.grabButton 1 8 = InitOp.grabButton b m)) := by
  have h := c9_startup_order_amended c9actions (fun _ => none) ["main"]
  exact ⟨h.1, h.2 (InitOp.grabButton 1 8) (by decide)⟩

end NerdwmWm
